import Mathlib

/-!
Shallow embedding of `src/timelapse_monitor.py` (class `TimelapseMonitor`),
covering the delivery pipeline (`handle_file_processing`,
`upload_to_onedrive`, `process_backup_files`, `check_new_images`), the
verify utility (`verify_file`), the notification escalation channel
(`send_notification`) and the disk branch of the health supervisor
(`system_monitor`).

Modelling conventions:
* The local filesystem is an association list from paths (directory tag plus
  file name) to files; a file's content is abstracted to a `Nat` identity and
  the SHA-256 digest is modelled as that identity (the source uses the digest
  only as an opaque fingerprint, never inverting it).
* The sqlite table `processed_files` (filename UNIQUE, per the
  `INSERT OR REPLACE` usage and the spec's one-record-per-filename invariant)
  is an association list from filename to record. Every `with sqlite3.connect`
  block in the source commits on exit, so each block is one atomic update of
  this list.
* External effects are driven by an environment: the remote sink accepting or
  raising on a push is `Env.sinkOk`, the camera listing is `Env.cameraFiles`,
  etc. Python exceptions of the modelled code are explicit control flow:
  every operation that the source wraps in `try`/`except` is total here, with
  the `except` branch written out where it is reachable.
* `send_notification` is called by the pipeline purely for its side effect
  (its boolean result is ignored by every pipeline caller, and it never
  raises); the pipeline model therefore records each call as an emitted
  notification event.  Its internal primary/secondary transport behaviour is
  modelled separately for the escalation claims.
-/

set_option linter.unusedVariables false

namespace Timelapse

/-- Priority constants of `class NotificationPriority`. -/
def CRITICAL : Nat := 5
def HIGH : Nat := 4
def MEDIUM : Nat := 3
def LOW : Nat := 2
def INFO : Nat := 1

/-- The two local directories the pipeline writes to: `self.temp_dir`
(`/tmp/timelapse_monitor`) and `self.backup_dir` (`/opt/timelapse/backup`). -/
inductive Dir
  | temp
  | backup
deriving DecidableEq, Repr

/-- A local path: directory plus file name. -/
structure FPath where
  dir : Dir
  name : String
deriving DecidableEq, Repr

/-- A file on the local filesystem: abstract content identity plus byte size. -/
structure FSFile where
  content : Nat
  size : Nat
deriving DecidableEq, Repr

/-- The local filesystem: path to file, later entries shadowed by `lookupFS`
never arising because `writeFS` removes the old entry first. -/
abbrev FS := List (FPath × FSFile)

def lookupFS : FS → FPath → Option FSFile
  | [], _ => none
  | e :: fs, p => if e.1 = p then some e.2 else lookupFS fs p

def removeFS : FS → FPath → FS
  | [], _ => []
  | e :: fs, p => if e.1 = p then removeFS fs p else e :: removeFS fs p

/-- Create or overwrite the file at `p` (POSIX rename/open-for-write both
overwrite an existing destination). -/
def writeFS (fs : FS) (p : FPath) (f : FSFile) : FS :=
  removeFS fs p ++ [(p, f)]

/-- `upload_status` values stored in the `processed_files` table. -/
inductive UploadStatus
  | pending
  | success
  | backup
deriving DecidableEq, Repr

/-- One row of the `processed_files` table. -/
structure FileRecord where
  checksum : Nat
  size : Nat
  processed_at : Nat
  upload_status : UploadStatus
  retries : Nat
deriving DecidableEq, Repr

/-- The `processed_files` table, keyed by `filename`. -/
abbrev DB := List (String × FileRecord)

def getRecord : DB → String → Option FileRecord
  | [], _ => none
  | e :: db, f => if e.1 = f then some e.2 else getRecord db f

/-- `INSERT OR REPLACE` keyed on `filename`. -/
def upsertRecord : DB → String → FileRecord → DB
  | [], f, r => [(f, r)]
  | e :: db, f, r => if e.1 = f then (f, r) :: db else e :: upsertRecord db f r

/-- `UPDATE processed_files SET upload_status = s WHERE filename = f`
(updates every row whose key is `f`, written by structural recursion). -/
def setStatus : DB → String → UploadStatus → DB
  | [], _, _ => []
  | e :: db, f, s =>
      (if e.1 = f then (e.1, { e.2 with upload_status := s }) else e) :: setStatus db f s

/-- `UPDATE processed_files SET retries = retries + 1 WHERE filename = f`. -/
def bumpRetries : DB → String → DB
  | [], _ => []
  | e :: db, f =>
      (if e.1 = f then (e.1, { e.2 with retries := e.2.retries + 1 }) else e) :: bumpRetries db f

/-- `SELECT filename FROM processed_files WHERE filename = f AND
upload_status = 'success'` followed by `fetchone()` truthiness. -/
def hasSuccess (db : DB) (f : String) : Bool :=
  match getRecord db f with
  | some r => r.upload_status = UploadStatus.success
  | none => false

/-- The table's `filename` column is a unique key (sqlite uniqueness
constraint implied by the `INSERT OR REPLACE` usage). -/
def KeysNodup (db : DB) : Prop :=
  (db.map Prod.fst).Nodup

/-- Notification messages, one constructor per literal format string in the
source:
* `uploadFailed err` — `OneDrive upload failed: <err>` (MEDIUM),
* `savedToBackup f` — `File <f> saved to backup storage after upload failure` (MEDIUM),
* `processingFailed f err` — `File processing failed for <f>: <err>` (HIGH),
* `backupUploaded f` — `Successfully uploaded backup file <f>` (LOW),
* `diskCritical p` — `Critical: Disk space low (<p>% used)` (CRITICAL),
* `diskWarning p` — `Warning: Disk space getting low (<p>% used)` (LOW). -/
inductive NotifMsg
  | uploadFailed (err : String)
  | savedToBackup (filename : String)
  | processingFailed (filename : String) (err : String)
  | backupUploaded (filename : String)
  | diskCritical (percent : Nat)
  | diskWarning (percent : Nat)
deriving DecidableEq, Repr

/-- The file a notification message names, if any. -/
def notifFile : NotifMsg → Option String
  | NotifMsg.savedToBackup f => some f
  | NotifMsg.processingFailed f _ => some f
  | NotifMsg.backupUploaded f => some f
  | _ => none

/-- External world driving one run: sink behaviour, configuration, camera. -/
structure Env where
  /-- Whether the remote sink accepts the push of the object with this name
  (`self.client.item(...).upload` returns instead of raising). -/
  sinkOk : String → Bool
  /-- `str(e)` of the exception the sink raises when it rejects. -/
  sinkErr : String
  /-- `int(os.getenv('MAX_RETRIES', '5'))`. -/
  maxRetries : Nat
  /-- Names returned by `get_camera_files` (stable within one cycle). -/
  cameraFiles : List String
  /-- Content of a camera file, by name. -/
  deviceContent : String → Nat
  /-- Size of a camera file, by name. -/
  deviceSize : String → Nat
  /-- Whether `camera.file_get`/`save` succeeds for this name. -/
  downloadOk : String → Bool

/-- Observable state of one process: filesystem, database, traces of emitted
notifications, sink upload attempts and device download attempts, the
in-memory `self.processed_files` set (as a list, insertion-ordered), and the
current clock value used for `datetime.now()` timestamps. -/
structure St where
  fs : FS
  db : DB
  notifs : List (NotifMsg × Nat)
  uploads : List String
  downloads : List String
  processedFiles : List String
  now : Nat
deriving Repr

/-- A call to `self.send_notification(m, priority)` from the pipeline: its
boolean result is ignored by every pipeline caller and it never raises, so
its pipeline-visible effect is the emission of the event. -/
def pushNotif (st : St) (m : NotifMsg) (priority : Nat) : St :=
  { st with notifs := st.notifs ++ [(m, priority)] }

/-- `TimelapseMonitor.verify_file` (lines 257-266).  Mirrors the Python
truthiness test `if original_size and current_size != original_size`:
an `original_size` of `None` or `0` disables the size comparison. -/
def verify_file (fs : FS) (file_path : FPath) (original_size : Option Nat) : Bool :=
  match lookupFS fs file_path with
  | none => false
  | some f =>
    match original_size with
    | none => true
    | some s => if s ≠ 0 ∧ f.size ≠ s then false else true

/-- `TimelapseMonitor.upload_to_onedrive` (lines 324-373).
Copies the source to a scratch file `temp/upload_<name>`, verifies the copy,
pushes it to the sink under the source's own file name, unlinks the original
on success; on any failure sends a MEDIUM notification and moves the original
into the backup directory under its current name (`filepath.name`); the
`finally` block removes the scratch copy on every path. -/
def upload_to_onedrive (env : Env) (st : St) (filepath : FPath) : Bool × St :=
  let filename := filepath.name
  let temp_path : FPath := ⟨Dir.temp, "upload_" ++ filename⟩
  match lookupFS st.fs filepath with
  | none =>
      -- `open(filepath, 'rb')` raises: the except branch sends the MEDIUM
      -- notification, the rename of the missing file fails and is swallowed
      -- by the inner try, and the finally block removes any stale scratch file.
      (false, { pushNotif st (NotifMsg.uploadFailed "file not found") MEDIUM with
                  fs := removeFS st.fs temp_path })
  | some src =>
      -- `dst.write(src.read())`: the scratch copy (overwriting if present)
      let st1 : St := { st with fs := writeFS st.fs temp_path src }
      if verify_file st1.fs temp_path (some src.size) then
        -- the client push is made: one upload attempt against the sink
        let st2 : St := { st1 with uploads := st1.uploads ++ [filename] }
        if env.sinkOk filename then
          -- success: unlink the original; finally removes the scratch copy
          (true, { st2 with fs := removeFS (removeFS st2.fs filepath) temp_path })
        else
          -- the sink raised: MEDIUM notification, move the original to the
          -- backup dir by its current name, finally removes the scratch copy
          let st3 := pushNotif st2 (NotifMsg.uploadFailed env.sinkErr) MEDIUM
          (false, { st3 with
              fs := removeFS
                      (writeFS (removeFS st3.fs filepath) ⟨Dir.backup, filename⟩ src)
                      temp_path })
      else
        -- `raise Exception("File verification failed after copy")` — never
        -- taken (the copy always carries the source's size); kept for fidelity
        let stE := pushNotif st1
          (NotifMsg.uploadFailed "File verification failed after copy") MEDIUM
        (false, { stE with
            fs := removeFS
                    (writeFS (removeFS stE.fs filepath) ⟨Dir.backup, filename⟩ src)
                    temp_path })

/-- `TimelapseMonitor.handle_file_processing` (lines 268-322).
Checksum and size are read first (raising if the local file is missing); a
persisted `success` record short-circuits; otherwise the record is upserted
as `pending` with zero retries, the upload is attempted, and on upload
failure the original is renamed to `backup_dir/filename` — which raises
`FileNotFoundError` whenever `upload_to_onedrive` already moved it away, so
control falls into the except branch (HIGH notification, `False`). -/
def handle_file_processing (env : Env) (st : St) (filename : String)
    (local_path : FPath) : Bool × St :=
  match lookupFS st.fs local_path with
  | none =>
      -- `calculate_checksum` opens the file and raises: except branch
      (false, pushNotif st (NotifMsg.processingFailed filename "file not found") HIGH)
  | some f =>
      if hasSuccess st.db filename then
        (true, st)
      else
        let st1 : St :=
          { st with db := (upsertRecord st.db filename
              ⟨f.content, f.size, st.now, UploadStatus.pending, 0⟩) }
        let r := upload_to_onedrive env st1 local_path
        if r.1 then
          (true, { r.2 with db := setStatus r.2.db filename UploadStatus.success })
        else
          match lookupFS r.2.fs local_path with
          | none =>
              -- `local_path.rename(...)` raises FileNotFoundError: except branch
              (false, pushNotif r.2
                (NotifMsg.processingFailed filename "file not found") HIGH)
          | some g =>
              let st3 : St := { r.2 with
                fs := writeFS (removeFS r.2.fs local_path) ⟨Dir.backup, filename⟩ g }
              let st4 : St := { st3 with
                db := setStatus st3.db filename UploadStatus.backup }
              (true, pushNotif st4 (NotifMsg.savedToBackup filename) MEDIUM)

/-- One iteration of the `for filename, retries in backup_files` loop of
`process_backup_files` (lines 462-485). -/
def resyncStep (env : Env) (st : St) (entry : String × Nat) : St :=
  if env.maxRetries ≤ entry.2 then st
  else
    let backup_path : FPath := ⟨Dir.backup, entry.1⟩
    match lookupFS st.fs backup_path with
    | none => st
    | some _ =>
      let r := upload_to_onedrive env st backup_path
      if r.1 then
        pushNotif { r.2 with db := setStatus r.2.db entry.1 UploadStatus.success }
          (NotifMsg.backupUploaded entry.1) LOW
      else
        { r.2 with db := bumpRetries r.2.db entry.1 }

/-- `SELECT filename, retries FROM processed_files WHERE upload_status =
'backup'` followed by `fetchall()` (lines 456-460). -/
def backupSnapshot (db : DB) : List (String × Nat) :=
  (db.filter (fun e => e.2.upload_status = UploadStatus.backup)).map
    (fun e => (e.1, e.2.retries))

/-- `TimelapseMonitor.process_backup_files` (lines 453-492): snapshot the
`backup` rows, then iterate.  Nothing inside the loop raises in the model, so
the outer except branch is unreachable. -/
def process_backup_files (env : Env) (st : St) : St :=
  (backupSnapshot st.db).foldl (resyncStep env) st

/-- `TimelapseMonitor.download_file` (lines 228-247).  The local name is
`timelapse_<timestamp>_<filename>`; the device retrieval is recorded as a
download attempt; on failure the function logs and returns `None`. -/
def download_file (env : Env) (st : St) (filename : String) : Option FPath × St :=
  let local_path : FPath := ⟨Dir.temp, "timelapse_" ++ toString st.now ++ "_" ++ filename⟩
  let st1 : St := { st with downloads := st.downloads ++ [filename] }
  if env.downloadOk filename then
    (some local_path,
      { st1 with fs := (writeFS st1.fs local_path
          ⟨env.deviceContent filename, env.deviceSize filename⟩) })
  else
    (none, st1)

/-- `TimelapseMonitor.check_new_images` (lines 426-451).  `new_files` is the
set difference of the camera listing and the in-memory processed set; the
loop downloads each new file and, on successful processing, adds it to the
in-memory set; the set is then capped at 1000 entries (the Python
`set(list(s)[-1000:])` has unspecified order; insertion order is used here —
no claim exercises the cap). -/
def check_new_images (env : Env) (st : St) : St :=
  let new_files := env.cameraFiles.filter (fun f => ! st.processedFiles.contains f)
  if new_files.isEmpty then st
  else
    let new_file_infos := env.cameraFiles.filter (fun f => new_files.contains f)
    let st' := new_file_infos.foldl (fun s f =>
      let d := download_file env s f
      match d.1 with
      | none => d.2
      | some lp =>
        let h := handle_file_processing env d.2 f lp
        if h.1 then { h.2 with processedFiles := h.2.processedFiles ++ [f] }
        else h.2) st
    if 1000 < st'.processedFiles.length then
      { st' with processedFiles :=
          st'.processedFiles.drop (st'.processedFiles.length - 1000) }
    else st'

/-- Which transport a `send_notification` call touched. -/
inductive Transport
  | primary
  | secondary
deriving DecidableEq, Repr

/-- Environment of one `send_notification` call: whether the ntfy HTTP POST
returns 2xx, the successive `read_all()` payloads of the modem, and the
configured recipient (`ADMIN_PHONE`). -/
structure NotifChannelEnv where
  primaryOk : Bool
  responses : List String
  adminPhone : String

/-- Whether the character list contains `ERROR` as a contiguous run. -/
def hasERRORAux : List Char → Bool
  | [] => false
  | c :: cs => ("ERROR".toList.isPrefixOf (c :: cs)) || hasERRORAux cs

/-- Python's `"ERROR" in response`. -/
def containsERROR (s : String) : Bool :=
  hasERRORAux s.toList

/-- The three AT commands of the SMS fallback (mode set, recipient address,
payload terminated by CTRL+Z). -/
def smsCommands (adminPhone : String) (message : String) : List String :=
  ["AT+CMGF=1\r", "AT+CMGS=\"" ++ adminPhone ++ "\"\r", message ++ "\x1A"]

/-- The `for cmd in commands` loop of the SMS fallback: write each command,
read the next response, and raise (caught: overall `False`) on an `ERROR`
token; all commands clean means `True`. -/
def smsLoop : List String → List String → Bool
  | [], _ => true
  | _ :: cmds, resps =>
      if containsERROR (resps.headD "") then false
      else smsLoop cmds resps.tail

/-- `TimelapseMonitor.send_notification` (lines 375-416), transport level:
primary HTTP post first; on its failure, one pass through the serial SMS
fallback.  Total by construction — every exception of the source is caught
inside the function, so the caller never sees one. -/
def send_notification (env : NotifChannelEnv) (message : String)
    (priority : Nat) : Bool × List Transport :=
  if env.primaryOk then
    (true, [Transport.primary])
  else
    (smsLoop (smsCommands env.adminPhone message) env.responses,
     [Transport.primary, Transport.secondary])

/-- Default `DISK_CRITICAL_THRESHOLD` (getenv default `'10'`). -/
def DISK_CRITICAL_THRESHOLD_DEFAULT : Nat := 10

/-- Default `DISK_WARNING_THRESHOLD` (getenv default `'25'`). -/
def DISK_WARNING_THRESHOLD_DEFAULT : Nat := 25

/-- Default `MAX_RETRIES` (getenv default `'5'`). -/
def MAX_RETRIES_DEFAULT : Nat := 5

/-- The disk-space branch of one `system_monitor` iteration (lines 498-509):
`disk_usage.percent` (percentage of the root filesystem in use) is compared
against the critical threshold first, then the warning threshold.  The
thermal branch is independent of the disk branch and of every claim. -/
def system_monitor_disk_sample (disk_critical_threshold disk_warning_threshold
    percent : Nat) : List (NotifMsg × Nat) :=
  if disk_critical_threshold ≤ percent then
    [(NotifMsg.diskCritical percent, CRITICAL)]
  else if disk_warning_threshold ≤ percent then
    [(NotifMsg.diskWarning percent, LOW)]
  else []

/-! ### Concrete fixtures for the closed evaluation theorems -/

/-- An environment whose sink rejects every push, raising a timeout. -/
def envFail : Env :=
  { sinkOk := fun _ => false, sinkErr := "timeout", maxRetries := 5,
    cameraFiles := [], deviceContent := fun _ => 0, deviceSize := fun _ => 0,
    downloadOk := fun _ => false }

/-- An environment whose sink accepts, with the camera listing exactly
`IMG_01.JPG`. -/
def envRestart : Env :=
  { sinkOk := fun _ => true, sinkErr := "timeout", maxRetries := 5,
    cameraFiles := ["IMG_01.JPG"], deviceContent := fun _ => 9,
    deviceSize := fun _ => 50, downloadOk := fun _ => true }

/-- Fresh delivery state: `IMG_02.JPG` has just been downloaded to the temp
dir under its timestamped local name; no record exists yet. -/
def stFreshIMG02 : St :=
  { fs := [(⟨Dir.temp, "timelapse_1_IMG_02.JPG"⟩, ⟨7, 100⟩)], db := [],
    notifs := [], uploads := [], downloads := [], processedFiles := [], now := 1 }

/-- A persisted `backup` record for `A` with three failed retries, with a
fresh download of `A` sitting in the temp dir. -/
def stBackupA3 : St :=
  { fs := [(⟨Dir.temp, "timelapse_1_A"⟩, ⟨7, 100⟩)],
    db := [("A", ⟨7, 100, 0, UploadStatus.backup, 3⟩)],
    notifs := [], uploads := [], downloads := [], processedFiles := [], now := 1 }

/-- A freshly started process: persisted `success` record for `IMG_01.JPG`,
empty in-memory processed set, empty filesystem. -/
def stSuccessIMG01 : St :=
  { fs := [], db := [("IMG_01.JPG", ⟨9, 50, 0, UploadStatus.success, 0⟩)],
    notifs := [], uploads := [], downloads := [], processedFiles := [], now := 2 }

/-- One `backup` record for `B` with zero retries and its payload present in
the backup dir. -/
def stBackupB0 : St :=
  { fs := [(⟨Dir.backup, "B"⟩, ⟨3, 10⟩)],
    db := [("B", ⟨3, 10, 0, UploadStatus.backup, 0⟩)],
    notifs := [], uploads := [], downloads := [], processedFiles := [], now := 0 }

/-- A `backup` record for `M` that has exhausted its retries (5 = the
default ceiling), its payload still present in the backup dir. -/
def stMaxedM : St :=
  { fs := [(⟨Dir.backup, "M"⟩, ⟨0, 9⟩)],
    db := [("M", ⟨0, 9, 0, UploadStatus.backup, 5⟩)],
    notifs := [], uploads := [], downloads := [], processedFiles := [], now := 0 }

/-- A `backup` record for `X` below the retry ceiling whose payload is
missing from the backup dir. -/
def stMissingX : St :=
  { fs := [], db := [("X", ⟨1, 2, 0, UploadStatus.backup, 1⟩)],
    notifs := [], uploads := [], downloads := [], processedFiles := [], now := 0 }

/-- A persisted `success` record for `F` with a fresh local copy in the temp
dir. -/
def stSuccessF : St :=
  { fs := [(⟨Dir.temp, "t_F"⟩, ⟨1, 2⟩)],
    db := [("F", ⟨1, 2, 0, UploadStatus.success, 0⟩)],
    notifs := [], uploads := [], downloads := [], processedFiles := [], now := 0 }

/-! ### Lookup laws for the filesystem and database maps -/

theorem lookupFS_removeFS_self (fs : FS) (p : FPath) :
    lookupFS (removeFS fs p) p = none := by
  induction fs with
  | nil => simp [removeFS, lookupFS]
  | cons e fs ih =>
    by_cases hep : e.1 = p <;> simp [removeFS, lookupFS, hep, ih]

theorem lookupFS_removeFS_ne (fs : FS) (p q : FPath) (h : ¬ q = p) :
    lookupFS (removeFS fs p) q = lookupFS fs q := by
  induction fs with
  | nil => simp [removeFS]
  | cons e fs ih =>
    have hpq : ¬ p = q := fun hh => h hh.symm
    by_cases hep : e.1 = p
    · have heq : ¬ e.1 = q := fun hh => h (by rw [← hh, hep])
      simp [removeFS, lookupFS, hep, heq, hpq, ih]
    · by_cases heq : e.1 = q <;> simp [removeFS, lookupFS, hep, heq, h, hpq, ih]

theorem lookupFS_append (fs1 fs2 : FS) (q : FPath) :
    lookupFS (fs1 ++ fs2) q =
      match lookupFS fs1 q with
      | some f => some f
      | none => lookupFS fs2 q := by
  induction fs1 with
  | nil => simp [lookupFS]
  | cons e fs1 ih =>
    by_cases heq : e.1 = q <;> simp [lookupFS, heq, ih]

theorem lookupFS_writeFS_self (fs : FS) (p : FPath) (f : FSFile) :
    lookupFS (writeFS fs p f) p = some f := by
  unfold writeFS
  rw [lookupFS_append, lookupFS_removeFS_self]
  simp [lookupFS]

theorem lookupFS_writeFS_ne (fs : FS) (p : FPath) (f : FSFile) (q : FPath)
    (h : ¬ q = p) :
    lookupFS (writeFS fs p f) q = lookupFS fs q := by
  unfold writeFS
  rw [lookupFS_append, lookupFS_removeFS_ne fs p q h]
  have hpq : ¬ p = q := fun hh => h hh.symm
  cases hq : lookupFS fs q <;> simp [lookupFS, hpq]

theorem getRecord_setStatus_self (db : DB) (f : String) (s : UploadStatus) :
    getRecord (setStatus db f s) f =
      (getRecord db f).map (fun r => { r with upload_status := s }) := by
  induction db with
  | nil => simp [setStatus, getRecord]
  | cons e db ih =>
    by_cases hef : e.1 = f <;> simp [setStatus, getRecord, hef, ih]

theorem getRecord_setStatus_ne (db : DB) (f g : String) (s : UploadStatus)
    (h : ¬ g = f) :
    getRecord (setStatus db f s) g = getRecord db g := by
  induction db with
  | nil => simp [setStatus, getRecord]
  | cons e db ih =>
    have hfg : ¬ f = g := fun hh => h hh.symm
    by_cases hef : e.1 = f
    · have heg : ¬ e.1 = g := fun hg => h (by rw [← hg, hef])
      simp [setStatus, getRecord, hef, heg, h, hfg, ih]
    · by_cases heg : e.1 = g <;> simp [setStatus, getRecord, hef, heg, h, hfg, ih]

theorem getRecord_bumpRetries_self (db : DB) (f : String) :
    getRecord (bumpRetries db f) f =
      (getRecord db f).map (fun r => { r with retries := r.retries + 1 }) := by
  induction db with
  | nil => simp [bumpRetries, getRecord]
  | cons e db ih =>
    by_cases hef : e.1 = f <;> simp [bumpRetries, getRecord, hef, ih]

theorem getRecord_bumpRetries_ne (db : DB) (f g : String) (h : ¬ g = f) :
    getRecord (bumpRetries db f) g = getRecord db g := by
  induction db with
  | nil => simp [bumpRetries, getRecord]
  | cons e db ih =>
    have hfg : ¬ f = g := fun hh => h hh.symm
    by_cases hef : e.1 = f
    · have heg : ¬ e.1 = g := fun hg => h (by rw [← hg, hef])
      simp [bumpRetries, getRecord, hef, heg, h, hfg, ih]
    · by_cases heg : e.1 = g <;> simp [bumpRetries, getRecord, hef, heg, h, hfg, ih]

theorem getRecord_of_mem_nodup (db : DB) (f : String) (R : FileRecord)
    (hnd : KeysNodup db) (hm : (f, R) ∈ db) : getRecord db f = some R := by
  induction db with
  | nil => simp at hm
  | cons e db ih =>
    rcases List.mem_cons.mp hm with he | hm'
    · simp [getRecord, ← he]
    · have hnd' : KeysNodup db := (List.nodup_cons.mp hnd).2
      have hf_mem : f ∈ db.map Prod.fst := List.mem_map.mpr ⟨(f, R), hm', rfl⟩
      have hef : ¬ e.1 = f := by
        intro h
        exact (List.nodup_cons.mp hnd).1 (h ▸ hf_mem)
      simp [getRecord, hef, ih hnd' hm']

/-! ### Closed forms of `upload_to_onedrive` on its three reachable paths -/

theorem upload_copy_verifies (fs : FS) (tp : FPath) (src : FSFile) :
    verify_file (writeFS fs tp src) tp (some src.size) = true := by
  simp [verify_file, lookupFS_writeFS_self]

theorem upload_notfound (env : Env) (st : St) (p : FPath)
    (h : lookupFS st.fs p = none) :
    upload_to_onedrive env st p =
      (false, { st with
        fs := removeFS st.fs ⟨Dir.temp, "upload_" ++ p.name⟩,
        notifs := st.notifs ++ [(NotifMsg.uploadFailed "file not found", MEDIUM)] }) := by
  simp only [upload_to_onedrive, h, pushNotif]

theorem upload_accept (env : Env) (st : St) (p : FPath) (src : FSFile)
    (h : lookupFS st.fs p = some src) (hs : env.sinkOk p.name = true) :
    upload_to_onedrive env st p =
      (true, { st with
        fs := removeFS
                (removeFS (writeFS st.fs ⟨Dir.temp, "upload_" ++ p.name⟩ src) p)
                ⟨Dir.temp, "upload_" ++ p.name⟩,
        uploads := st.uploads ++ [p.name] }) := by
  simp only [upload_to_onedrive, h, upload_copy_verifies, hs, if_true]

theorem upload_reject (env : Env) (st : St) (p : FPath) (src : FSFile)
    (h : lookupFS st.fs p = some src) (hs : env.sinkOk p.name = false) :
    upload_to_onedrive env st p =
      (false, { st with
        fs := removeFS
                (writeFS
                  (removeFS (writeFS st.fs ⟨Dir.temp, "upload_" ++ p.name⟩ src) p)
                  ⟨Dir.backup, p.name⟩ src)
                ⟨Dir.temp, "upload_" ++ p.name⟩,
        uploads := st.uploads ++ [p.name],
        notifs := st.notifs ++ [(NotifMsg.uploadFailed env.sinkErr, MEDIUM)] }) := by
  simp only [upload_to_onedrive, h, upload_copy_verifies, hs, if_true,
    Bool.false_eq_true, if_false, pushNotif]

/-! ### Frame reasoning for the resync loop -/

/-- Everything the resync loop could do to file `f` is absent between `pre`
and `post`: its record is unchanged, its backup payload slot is unchanged,
no upload attempt with its name was made and no notification naming it was
emitted. -/
def Untouched (f : String) (pre post : St) : Prop :=
  getRecord post.db f = getRecord pre.db f ∧
  lookupFS post.fs ⟨Dir.backup, f⟩ = lookupFS pre.fs ⟨Dir.backup, f⟩ ∧
  (∃ u, post.uploads = pre.uploads ++ u ∧ ¬ f ∈ u) ∧
  (∃ n, post.notifs = pre.notifs ++ n ∧ ∀ x ∈ n, ¬ notifFile x.1 = some f)

theorem untouched_refl (f : String) (st : St) : Untouched f st st :=
  ⟨rfl, rfl, ⟨[], by simp, by simp⟩, ⟨[], by simp, by simp⟩⟩

theorem untouched_trans (f : String) (s1 s2 s3 : St)
    (h12 : Untouched f s1 s2) (h23 : Untouched f s2 s3) : Untouched f s1 s3 := by
  obtain ⟨hdb1, hfs1, ⟨u1, hu1, hu1n⟩, ⟨n1, hn1, hn1n⟩⟩ := h12
  obtain ⟨hdb2, hfs2, ⟨u2, hu2, hu2n⟩, ⟨n2, hn2, hn2n⟩⟩ := h23
  refine ⟨hdb2.trans hdb1, hfs2.trans hfs1, ⟨u1 ++ u2, ?_, ?_⟩, ⟨n1 ++ n2, ?_, ?_⟩⟩
  · rw [hu2, hu1, List.append_assoc]
  · intro hm
    rcases List.mem_append.mp hm with hm | hm
    · exact hu1n hm
    · exact hu2n hm
  · rw [hn2, hn1, List.append_assoc]
  · intro x hx
    rcases List.mem_append.mp hx with hx | hx
    · exact hn1n x hx
    · exact hn2n x hx

theorem resyncStep_skip_max (env : Env) (st : St) (e : String × Nat)
    (h : env.maxRetries ≤ e.2) : resyncStep env st e = st := by
  simp [resyncStep, h]

theorem resyncStep_skip_missing (env : Env) (st : St) (e : String × Nat)
    (h : lookupFS st.fs ⟨Dir.backup, e.1⟩ = none) : resyncStep env st e = st := by
  by_cases hm : env.maxRetries ≤ e.2
  · simp [resyncStep, hm]
  · simp [resyncStep, hm, h]

theorem resyncStep_attempt_accept (env : Env) (st : St) (e : String × Nat)
    (src : FSFile) (hm : ¬ env.maxRetries ≤ e.2)
    (hl : lookupFS st.fs ⟨Dir.backup, e.1⟩ = some src)
    (hs : env.sinkOk e.1 = true) :
    resyncStep env st e =
      { st with
        fs := removeFS
                (removeFS (writeFS st.fs ⟨Dir.temp, "upload_" ++ e.1⟩ src)
                  ⟨Dir.backup, e.1⟩)
                ⟨Dir.temp, "upload_" ++ e.1⟩,
        uploads := st.uploads ++ [e.1],
        db := setStatus st.db e.1 UploadStatus.success,
        notifs := st.notifs ++ [(NotifMsg.backupUploaded e.1, LOW)] } := by
  simp only [resyncStep, hm, if_false, hl,
    upload_accept env st ⟨Dir.backup, e.1⟩ src hl hs, pushNotif]
  simp

theorem resyncStep_attempt_reject (env : Env) (st : St) (e : String × Nat)
    (src : FSFile) (hm : ¬ env.maxRetries ≤ e.2)
    (hl : lookupFS st.fs ⟨Dir.backup, e.1⟩ = some src)
    (hs : env.sinkOk e.1 = false) :
    resyncStep env st e =
      { st with
        fs := removeFS
                (writeFS
                  (removeFS (writeFS st.fs ⟨Dir.temp, "upload_" ++ e.1⟩ src)
                    ⟨Dir.backup, e.1⟩)
                  ⟨Dir.backup, e.1⟩ src)
                ⟨Dir.temp, "upload_" ++ e.1⟩,
        uploads := st.uploads ++ [e.1],
        notifs := st.notifs ++ [(NotifMsg.uploadFailed env.sinkErr, MEDIUM)],
        db := bumpRetries st.db e.1 } := by
  simp only [resyncStep, hm, if_false, hl,
    upload_reject env st ⟨Dir.backup, e.1⟩ src hl hs]
  simp

theorem resyncStep_untouched (env : Env) (st : St) (e : String × Nat)
    (f : String) (hne : ¬ e.1 = f) :
    Untouched f st (resyncStep env st e) := by
  by_cases hm : env.maxRetries ≤ e.2
  · rw [resyncStep_skip_max env st e hm]
    exact untouched_refl f st
  · cases hl : lookupFS st.fs ⟨Dir.backup, e.1⟩ with
    | none =>
      rw [resyncStep_skip_missing env st e hl]
      exact untouched_refl f st
    | some src =>
      have hfe : ¬ f = e.1 := fun hh => hne hh.symm
      have hbf_tp : ¬ (⟨Dir.backup, f⟩ : FPath) = ⟨Dir.temp, "upload_" ++ e.1⟩ := by
        simp
      have hbf_be : ¬ (⟨Dir.backup, f⟩ : FPath) = ⟨Dir.backup, e.1⟩ := by
        simp [hfe]
      cases hs : env.sinkOk e.1 with
      | true =>
        rw [resyncStep_attempt_accept env st e src hm hl hs]
        refine ⟨?_, ?_, ⟨[e.1], rfl, ?_⟩,
          ⟨[(NotifMsg.backupUploaded e.1, LOW)], rfl, ?_⟩⟩
        · exact getRecord_setStatus_ne st.db e.1 f UploadStatus.success hfe
        · rw [lookupFS_removeFS_ne _ _ _ hbf_tp, lookupFS_removeFS_ne _ _ _ hbf_be,
            lookupFS_writeFS_ne _ _ _ _ hbf_tp]
        · simp [hfe]
        · simp [notifFile, hne]
      | false =>
        rw [resyncStep_attempt_reject env st e src hm hl hs]
        refine ⟨?_, ?_, ⟨[e.1], rfl, ?_⟩,
          ⟨[(NotifMsg.uploadFailed env.sinkErr, MEDIUM)], rfl, ?_⟩⟩
        · exact getRecord_bumpRetries_ne st.db e.1 f hfe
        · rw [lookupFS_removeFS_ne _ _ _ hbf_tp, lookupFS_writeFS_ne _ _ _ _ hbf_be,
            lookupFS_removeFS_ne _ _ _ hbf_be, lookupFS_writeFS_ne _ _ _ _ hbf_tp]
        · simp [hfe]
        · simp [notifFile]

theorem foldl_resync_untouched_of_max (env : Env) (f : String)
    (L : List (String × Nat)) :
    ∀ st : St, (∀ e ∈ L, e.1 = f → env.maxRetries ≤ e.2) →
      Untouched f st (L.foldl (resyncStep env) st) := by
  induction L with
  | nil =>
    intro st _
    exact untouched_refl f st
  | cons e L ih =>
    intro st h
    simp only [List.foldl_cons]
    by_cases hef : e.1 = f
    · rw [resyncStep_skip_max env st e (h e (List.mem_cons_self e L) hef)]
      exact ih st (fun x hx hxf => h x (List.mem_cons_of_mem e hx) hxf)
    · exact untouched_trans f st _ _
        (resyncStep_untouched env st e f hef)
        (ih _ (fun x hx hxf => h x (List.mem_cons_of_mem e hx) hxf))

theorem foldl_resync_untouched_of_missing (env : Env) (f : String)
    (L : List (String × Nat)) :
    ∀ st : St, lookupFS st.fs ⟨Dir.backup, f⟩ = none →
      Untouched f st (L.foldl (resyncStep env) st) := by
  induction L with
  | nil =>
    intro st _
    exact untouched_refl f st
  | cons e L ih =>
    intro st hmiss
    simp only [List.foldl_cons]
    by_cases hef : e.1 = f
    · have he : lookupFS st.fs ⟨Dir.backup, e.1⟩ = none := by rw [hef]; exact hmiss
      rw [resyncStep_skip_missing env st e he]
      exact ih st hmiss
    · have hu := resyncStep_untouched env st e f hef
      have hmiss' : lookupFS (resyncStep env st e).fs ⟨Dir.backup, f⟩ = none := by
        rw [hu.2.1, hmiss]
      exact untouched_trans f st _ _ hu (ih _ hmiss')

theorem resyncStep_record (env : Env) (st : St) (e : String × Nat)
    (rec : FileRecord) (hr : getRecord st.db e.1 = some rec) :
    ∃ rec', getRecord (resyncStep env st e).db e.1 = some rec' ∧
      (rec' = rec ∨ rec' = { rec with upload_status := UploadStatus.success } ∨
        rec' = { rec with retries := rec.retries + 1 }) := by
  by_cases hm : env.maxRetries ≤ e.2
  · rw [resyncStep_skip_max env st e hm]
    exact ⟨rec, hr, Or.inl rfl⟩
  · cases hl : lookupFS st.fs ⟨Dir.backup, e.1⟩ with
    | none =>
      rw [resyncStep_skip_missing env st e hl]
      exact ⟨rec, hr, Or.inl rfl⟩
    | some src =>
      cases hs : env.sinkOk e.1 with
      | true =>
        rw [resyncStep_attempt_accept env st e src hm hl hs]
        refine ⟨_, ?_, Or.inr (Or.inl rfl)⟩
        show getRecord (setStatus st.db e.1 UploadStatus.success) e.1 = _
        rw [getRecord_setStatus_self, hr]
        rfl
      | false =>
        rw [resyncStep_attempt_reject env st e src hm hl hs]
        refine ⟨_, ?_, Or.inr (Or.inr rfl)⟩
        show getRecord (bumpRetries st.db e.1) e.1 = _
        rw [getRecord_bumpRetries_self, hr]
        rfl

theorem foldl_resync_mono (env : Env) (f : String) (rec : FileRecord)
    (L : List (String × Nat)) :
    ∀ st : St, (L.map Prod.fst).Nodup →
      getRecord st.db f = some rec →
      ∃ rec', getRecord (L.foldl (resyncStep env) st).db f = some rec' ∧
        (rec' = rec ∨ rec' = { rec with upload_status := UploadStatus.success } ∨
          rec' = { rec with retries := rec.retries + 1 }) := by
  induction L with
  | nil =>
    intro st _ hr
    exact ⟨rec, hr, Or.inl rfl⟩
  | cons e L ih =>
    intro st hnd hr
    rw [List.map_cons] at hnd
    have hnd0 := List.nodup_cons.mp hnd
    simp only [List.foldl_cons]
    by_cases hef : e.1 = f
    · have hnot : ¬ f ∈ L.map Prod.fst := by
        have h1 := hnd0.1
        rw [hef] at h1
        exact h1
      obtain ⟨rec', hrec', hopt⟩ :=
        resyncStep_record env st e rec (by rw [hef]; exact hr)
      have hrec'f : getRecord (resyncStep env st e).db f = some rec' := by
        rw [← hef]
        exact hrec'
      have hu := foldl_resync_untouched_of_max env f L (resyncStep env st e)
        (fun x hx hxf => absurd (List.mem_map.mpr ⟨x, hx, hxf⟩) hnot)
      exact ⟨rec', by rw [hu.1, hrec'f], hopt⟩
    · have hu := resyncStep_untouched env st e f hef
      have hr' : getRecord (resyncStep env st e).db f = some rec := by
        rw [hu.1, hr]
      exact ih _ hnd0.2 hr'

/-! ### The snapshot of `backup` rows -/

theorem mem_backupSnapshot (db : DB) (x : String × Nat)
    (hx : x ∈ backupSnapshot db) :
    ∃ R : FileRecord, (x.1, R) ∈ db ∧ R.upload_status = UploadStatus.backup ∧
      R.retries = x.2 := by
  unfold backupSnapshot at hx
  obtain ⟨e, he, hxe⟩ := List.mem_map.mp hx
  obtain ⟨hedb, hback⟩ := List.mem_filter.mp he
  subst hxe
  refine ⟨e.2, by simpa using hedb, by simpa using hback, rfl⟩

theorem backupSnapshot_keys_nodup (db : DB) (hnd : KeysNodup db) :
    ((backupSnapshot db).map Prod.fst).Nodup := by
  have heq : (backupSnapshot db).map Prod.fst =
      (db.filter (fun e => e.2.upload_status = UploadStatus.backup)).map Prod.fst := by
    simp [backupSnapshot, List.map_map]
  rw [heq]
  exact List.Nodup.sublist
    (List.Sublist.map Prod.fst (List.filter_sublist db)) hnd

/-! ### Claim theorems -/

/-- Claim C4: once the store marks a filename `success`, a second call to
`handle_file_processing` for that filename (with the re-downloaded payload on
disk) returns success and leaves the state — store, filesystem, upload trace
and notification trace — completely unchanged: the second delivery is an
idempotent no-op that neither writes the store nor contacts the remote
sink, so the single `success` record stays the only one. -/
theorem handle_idempotent_on_success (env : Env) (st : St) (filename : String)
    (p : FPath) (file : FSFile) (rec : FileRecord)
    (hf : lookupFS st.fs p = some file)
    (hr : getRecord st.db filename = some rec)
    (hs : rec.upload_status = UploadStatus.success) :
    handle_file_processing env st filename p = (true, st) := by
  have hsc : hasSuccess st.db filename = true := by
    simp [hasSuccess, hr, hs]
  simp [handle_file_processing, hf, hsc]

/-- Witness for C4 at a concrete state with a persisted `success` record. -/
theorem handle_idempotent_on_success_w :
    handle_file_processing envFail stSuccessF "F" ⟨Dir.temp, "t_F"⟩ =
      (true, stSuccessF) :=
  handle_idempotent_on_success envFail stSuccessF "F" ⟨Dir.temp, "t_F"⟩
    ⟨1, 2⟩ ⟨1, 2, 0, UploadStatus.success, 0⟩ (by decide) (by decide) rfl

/-- Claim C5: a `backup` record whose retries have reached the configured
ceiling is never attempted by a resync run — its record is left unchanged
and no upload attempt carrying its name is made. -/
theorem resync_skips_maxed_out (env : Env) (st : St) (f : String)
    (rec : FileRecord) (hnd : KeysNodup st.db)
    (hr : getRecord st.db f = some rec)
    (hb : rec.upload_status = UploadStatus.backup)
    (hmax : env.maxRetries ≤ rec.retries) :
    getRecord (process_backup_files env st).db f = some rec ∧
    ∃ u, (process_backup_files env st).uploads = st.uploads ++ u ∧ ¬ f ∈ u := by
  have hcond : ∀ e ∈ backupSnapshot st.db, e.1 = f → env.maxRetries ≤ e.2 := by
    intro e he hef
    obtain ⟨R, hmem, hRb, hRr⟩ := mem_backupSnapshot st.db e he
    rw [hef] at hmem
    have hgr := getRecord_of_mem_nodup st.db f R hnd hmem
    rw [hr] at hgr
    have hRrec : rec = R := Option.some.inj hgr
    rw [← hRr, ← hRrec]
    exact hmax
  have hu := foldl_resync_untouched_of_max env f (backupSnapshot st.db) st hcond
  unfold process_backup_files
  exact ⟨by rw [hu.1]; exact hr, hu.2.2.1⟩

/-- Witness for C5: the maxed-out record `M` (retries = 5 = ceiling) is left
unchanged and never uploaded even though its payload is present. -/
theorem resync_skips_maxed_out_w :
    getRecord (process_backup_files envFail stMaxedM).db "M" =
      some ⟨0, 9, 0, UploadStatus.backup, 5⟩ ∧
    ∃ u, (process_backup_files envFail stMaxedM).uploads =
      stMaxedM.uploads ++ u ∧ ¬ "M" ∈ u :=
  resync_skips_maxed_out envFail stMaxedM "M" ⟨0, 9, 0, UploadStatus.backup, 5⟩
    (by unfold KeysNodup; decide) (by decide) rfl (by decide)

/-- Claim C10: a `backup` record below the retry ceiling whose payload is
missing from the backup dir is skipped by a resync run: its record is left
completely unchanged, no upload attempt carrying its name is made, and no
notification naming it is emitted. -/
theorem resync_skips_missing_payload (env : Env) (st : St) (f : String)
    (rec : FileRecord)
    (hr : getRecord st.db f = some rec)
    (hb : rec.upload_status = UploadStatus.backup)
    (hlt : rec.retries < env.maxRetries)
    (hmiss : lookupFS st.fs ⟨Dir.backup, f⟩ = none) :
    getRecord (process_backup_files env st).db f = some rec ∧
    (∃ u, (process_backup_files env st).uploads = st.uploads ++ u ∧ ¬ f ∈ u) ∧
    (∃ n, (process_backup_files env st).notifs = st.notifs ++ n ∧
      ∀ x ∈ n, ¬ notifFile x.1 = some f) := by
  have hu := foldl_resync_untouched_of_missing env f (backupSnapshot st.db) st hmiss
  unfold process_backup_files
  exact ⟨by rw [hu.1]; exact hr, hu.2.2.1, hu.2.2.2⟩

/-- Witness for C10 at a concrete state whose backup payload is absent. -/
theorem resync_skips_missing_payload_w :
    getRecord (process_backup_files envFail stMissingX).db "X" =
      some ⟨1, 2, 0, UploadStatus.backup, 1⟩ ∧
    (∃ u, (process_backup_files envFail stMissingX).uploads =
      stMissingX.uploads ++ u ∧ ¬ "X" ∈ u) ∧
    (∃ n, (process_backup_files envFail stMissingX).notifs =
      stMissingX.notifs ++ n ∧ ∀ x ∈ n, ¬ notifFile x.1 = some "X") :=
  resync_skips_missing_payload envFail stMissingX "X"
    ⟨1, 2, 0, UploadStatus.backup, 1⟩ (by decide) rfl (by decide) (by decide)

/-- Claim C2 as stated is false: a fresh rediscovery of a file whose record
is in `backup` state runs through `handle_file_processing`, whose
`INSERT OR REPLACE` re-creates the record as `pending` with zero retries —
here a `backup` record with 3 retries ends as `pending` with 0 retries
(the sink rejects and the subsequent rename raises, so the record is never
moved out of `pending` again). -/
theorem handle_resets_backup_record_cex :
    getRecord stBackupA3.db "A" = some ⟨7, 100, 0, UploadStatus.backup, 3⟩ ∧
    getRecord (handle_file_processing envFail stBackupA3 "A"
        ⟨Dir.temp, "timelapse_1_A"⟩).2.db "A" =
      some ⟨7, 100, 1, UploadStatus.pending, 0⟩ := by decide

/-- Claim C2 (amended): the backup-state monotonicity holds for the resync
job — `process_backup_files` moves a `backup` record only to `success` or
keeps it in `backup` with its retries either unchanged (skipped) or
incremented by one (attempted and failed), and never back to `pending`;
fresh rediscovery through `handle_file_processing`, however, re-inserts the
record as `pending` with retries reset to 0 before re-attempting the
upload. -/
theorem resync_backup_monotonic (env : Env) (st : St) (f : String)
    (rec : FileRecord) (hnd : KeysNodup st.db)
    (hr : getRecord st.db f = some rec)
    (hb : rec.upload_status = UploadStatus.backup) :
    ∃ rec', getRecord (process_backup_files env st).db f = some rec' ∧
      ¬ rec'.upload_status = UploadStatus.pending ∧
      (rec'.upload_status = UploadStatus.success ∨
        (rec'.upload_status = UploadStatus.backup ∧
          (rec'.retries = rec.retries ∨ rec'.retries = rec.retries + 1))) := by
  obtain ⟨rec', hrec', hopt⟩ :=
    foldl_resync_mono env f rec (backupSnapshot st.db) st
      (backupSnapshot_keys_nodup st.db hnd) hr
  unfold process_backup_files
  refine ⟨rec', hrec', ?_, ?_⟩
  · rcases hopt with h | h | h <;> subst h <;> simp [hb]
  · rcases hopt with h | h | h <;> subst h <;> simp [hb]

/-- Witness for the amended C2: the `backup` record `B` (retries 0) ends in
`success` or `backup` with retries 0 or 1, never `pending`. -/
theorem resync_backup_monotonic_w :
    ∃ rec', getRecord (process_backup_files envFail stBackupB0).db "B" =
        some rec' ∧
      ¬ rec'.upload_status = UploadStatus.pending ∧
      (rec'.upload_status = UploadStatus.success ∨
        (rec'.upload_status = UploadStatus.backup ∧
          (rec'.retries = (0 : Nat) ∨ rec'.retries = 0 + 1))) :=
  resync_backup_monotonic envFail stBackupB0 "B"
    ⟨3, 10, 0, UploadStatus.backup, 0⟩ (by unfold KeysNodup; decide) (by decide) rfl

/-- Claim C1 is contradicted by the code: on a fresh delivery of
`IMG_02.JPG` whose sink upload fails, `handle_file_processing` returns
`False` (not the backed-up outcome), the record stays `pending` (never set
to `backup`), nothing is placed at `BackupDir/IMG_02.JPG` — the payload
sits at `BackupDir` under its temp-prefixed download name instead — and two
notifications are emitted (the MEDIUM one from `upload_to_onedrive` plus a
HIGH failure one): `upload_to_onedrive`'s failure path has already moved
the file, so the handler's own rename raises `FileNotFoundError` and its
backup-demotion block is dead code. -/
theorem handle_upload_failure_leaves_pending :
    (handle_file_processing envFail stFreshIMG02 "IMG_02.JPG"
        ⟨Dir.temp, "timelapse_1_IMG_02.JPG"⟩).1 = false ∧
    getRecord (handle_file_processing envFail stFreshIMG02 "IMG_02.JPG"
        ⟨Dir.temp, "timelapse_1_IMG_02.JPG"⟩).2.db "IMG_02.JPG" =
      some ⟨7, 100, 1, UploadStatus.pending, 0⟩ ∧
    lookupFS (handle_file_processing envFail stFreshIMG02 "IMG_02.JPG"
        ⟨Dir.temp, "timelapse_1_IMG_02.JPG"⟩).2.fs
      ⟨Dir.backup, "IMG_02.JPG"⟩ = none ∧
    lookupFS (handle_file_processing envFail stFreshIMG02 "IMG_02.JPG"
        ⟨Dir.temp, "timelapse_1_IMG_02.JPG"⟩).2.fs
      ⟨Dir.backup, "timelapse_1_IMG_02.JPG"⟩ = some ⟨7, 100⟩ ∧
    (handle_file_processing envFail stFreshIMG02 "IMG_02.JPG"
        ⟨Dir.temp, "timelapse_1_IMG_02.JPG"⟩).2.notifs =
      [(NotifMsg.uploadFailed "timeout", MEDIUM),
       (NotifMsg.processingFailed "IMG_02.JPG" "file not found", HIGH)] := by
  decide

/-- Claim C3 as stated is false: a freshly started process (empty in-memory
processed set) that rediscovers `IMG_01.JPG` — which has a persisted
`success` record — still downloads it from the device again, because
`check_new_images` consults only the in-memory set before downloading and
the store check happens afterwards inside `handle_file_processing`. -/
theorem restart_redownloads_cex :
    getRecord stSuccessIMG01.db "IMG_01.JPG" =
      some ⟨9, 50, 0, UploadStatus.success, 0⟩ ∧
    stSuccessIMG01.processedFiles = [] ∧
    stSuccessIMG01.downloads = [] ∧
    (check_new_images envRestart stSuccessIMG01).downloads = ["IMG_01.JPG"] := by
  decide

/-- Claim C3 (amended): after a restart, a rediscovered file with a
persisted `success` record is downloaded from the device again, but it is
never re-uploaded: the store check inside `handle_file_processing` fires
after the download and before any sink contact, leaving store, upload trace
and notification trace unchanged. -/
theorem restart_skips_upload_not_download (env : Env) (st : St) (F : String)
    (rec : FileRecord) (hr : getRecord st.db F = some rec)
    (hs : rec.upload_status = UploadStatus.success)
    (hpf : st.processedFiles = []) (hcam : env.cameraFiles = [F])
    (hdl : env.downloadOk F = true) :
    (check_new_images env st).downloads = st.downloads ++ [F] ∧
    (check_new_images env st).uploads = st.uploads ∧
    (check_new_images env st).db = st.db ∧
    (check_new_images env st).notifs = st.notifs := by
  have hsc : hasSuccess st.db F = true := by simp [hasSuccess, hr, hs]
  have hlp : lookupFS (writeFS st.fs
      ⟨Dir.temp, "timelapse_" ++ toString st.now ++ "_" ++ F⟩
      ⟨env.deviceContent F, env.deviceSize F⟩)
      ⟨Dir.temp, "timelapse_" ++ toString st.now ++ "_" ++ F⟩ =
      some ⟨env.deviceContent F, env.deviceSize F⟩ := lookupFS_writeFS_self _ _ _
  unfold check_new_images download_file handle_file_processing
  rw [hcam, hpf]
  simp [hdl, hlp, hsc, hpf]

/-- Witness for the amended C3 at a concrete restart state. -/
theorem restart_skips_upload_not_download_w :
    (check_new_images envRestart stSuccessIMG01).downloads =
      stSuccessIMG01.downloads ++ ["IMG_01.JPG"] ∧
    (check_new_images envRestart stSuccessIMG01).uploads =
      stSuccessIMG01.uploads ∧
    (check_new_images envRestart stSuccessIMG01).db = stSuccessIMG01.db ∧
    (check_new_images envRestart stSuccessIMG01).notifs =
      stSuccessIMG01.notifs :=
  restart_skips_upload_not_download envRestart stSuccessIMG01 "IMG_01.JPG"
    ⟨9, 50, 0, UploadStatus.success, 0⟩ (by decide) rfl rfl rfl rfl

/-- Claim C6 as stated is false: a failed resync retry does emit a per-file
notification — `upload_to_onedrive`'s failure path sends a MEDIUM
`OneDrive upload failed` alert on every attempt, including those made from
`process_backup_files` (which itself adds no further notification). The
retries counter is incremented by exactly one, as claimed. -/
theorem resync_retry_notifies_cex :
    stBackupB0.notifs = [] ∧
    (process_backup_files envFail stBackupB0).notifs =
      [(NotifMsg.uploadFailed "timeout", MEDIUM)] ∧
    getRecord (process_backup_files envFail stBackupB0).db "B" =
      some ⟨3, 10, 0, UploadStatus.backup, 1⟩ := by
  decide

/-- Claim C6 (amended): a resync attempt on a single backed-up file whose
upload fails increments that record's retries by exactly one in place, makes
exactly one upload attempt, and emits exactly one notification — the MEDIUM
`OneDrive upload failed` alert sent by the upload routine itself;
`process_backup_files` adds no notification of its own on the failure
branch. -/
theorem resync_failed_retry_bumps_once (env : Env) (st : St) (f : String)
    (rec : FileRecord) (file : FSFile)
    (hdb : st.db = [(f, rec)])
    (hb : rec.upload_status = UploadStatus.backup)
    (hlt : rec.retries < env.maxRetries)
    (hfs : lookupFS st.fs ⟨Dir.backup, f⟩ = some file)
    (hsink : env.sinkOk f = false) :
    getRecord (process_backup_files env st).db f =
      some { rec with retries := rec.retries + 1 } ∧
    (process_backup_files env st).notifs =
      st.notifs ++ [(NotifMsg.uploadFailed env.sinkErr, MEDIUM)] ∧
    (process_backup_files env st).uploads = st.uploads ++ [f] := by
  unfold process_backup_files
  rw [hdb]
  have hsnap : backupSnapshot [(f, rec)] = [(f, rec.retries)] := by
    simp [backupSnapshot, hb]
  rw [hsnap]
  simp only [List.foldl_cons, List.foldl_nil]
  rw [resyncStep_attempt_reject env st (f, rec.retries) file
    (Nat.not_le.mpr hlt) hfs hsink]
  refine ⟨?_, rfl, rfl⟩
  show getRecord (bumpRetries st.db f) f = _
  rw [getRecord_bumpRetries_self]
  simp [hdb, getRecord]

/-- Witness for the amended C6: the single backed-up record `B` goes from 0
to 1 retries with exactly one MEDIUM upload-failure notification. -/
theorem resync_failed_retry_bumps_once_w :
    getRecord (process_backup_files envFail stBackupB0).db "B" =
      some ⟨3, 10, 0, UploadStatus.backup, 0 + 1⟩ ∧
    (process_backup_files envFail stBackupB0).notifs =
      stBackupB0.notifs ++ [(NotifMsg.uploadFailed "timeout", MEDIUM)] ∧
    (process_backup_files envFail stBackupB0).uploads =
      stBackupB0.uploads ++ ["B"] :=
  resync_failed_retry_bumps_once envFail stBackupB0 "B"
    ⟨3, 10, 0, UploadStatus.backup, 0⟩ ⟨3, 10⟩ rfl rfl (by decide) (by decide) rfl

theorem headD_getD0 (l : List String) : l.headD "" = l.getD 0 "" := by
  cases l <;> rfl

theorem tail_headD_getD1 (l : List String) : l.tail.headD "" = l.getD 1 "" := by
  cases l with
  | nil => rfl
  | cons a t => cases t <;> rfl

theorem tail2_headD_getD2 (l : List String) :
    l.tail.tail.headD "" = l.getD 2 "" := by
  cases l with
  | nil => rfl
  | cons a t =>
    cases t with
    | nil => rfl
    | cons b u => cases u <;> rfl

/-- Claim C7: when the primary HTTP transport fails, `send_notification`
attempts the secondary serial transport exactly once, returns true exactly
when no issued AT command's response stream carries an `ERROR` token, and —
being total with every internal exception caught — never raises to its
caller. -/
theorem notify_fallback_once (env : NotifChannelEnv) (message : String)
    (priority : Nat) (h : env.primaryOk = false) :
    (send_notification env message priority).2.count Transport.secondary = 1 ∧
    ((send_notification env message priority).1 = true ↔
      (containsERROR (env.responses.getD 0 "") = false ∧
       containsERROR (env.responses.getD 1 "") = false ∧
       containsERROR (env.responses.getD 2 "") = false)) := by
  constructor
  · simp only [send_notification, h, Bool.false_eq_true, if_false]
    decide
  · simp only [send_notification, h, Bool.false_eq_true, if_false, smsCommands,
      smsLoop, headD_getD0, tail_headD_getD1, tail2_headD_getD2,
      List.getD_eq_getElem?_getD]
    cases hc0 : containsERROR ((env.responses[0]?).getD "") <;>
      cases hc1 : containsERROR ((env.responses[1]?).getD "") <;>
        cases hc2 : containsERROR ((env.responses[2]?).getD "") <;>
          simp [hc0, hc1, hc2]

/-- Witness for C7 with a primary failure and three clean modem responses. -/
theorem notify_fallback_once_w :
    (send_notification ⟨false, ["OK", "OK", "OK"], "123"⟩ "msg" 3).2.count
      Transport.secondary = 1 ∧
    ((send_notification ⟨false, ["OK", "OK", "OK"], "123"⟩ "msg" 3).1 = true ↔
      (containsERROR ((["OK", "OK", "OK"] : List String).getD 0 "") = false ∧
       containsERROR ((["OK", "OK", "OK"] : List String).getD 1 "") = false ∧
       containsERROR ((["OK", "OK", "OK"] : List String).getD 2 "") = false)) :=
  notify_fallback_once ⟨false, ["OK", "OK", "OK"], "123"⟩ "msg" 3 rfl

/-- Claim C8 as stated is false on the `expectedSize = 0` corner: the Python
truthiness test `if original_size and ...` skips the size comparison when
the expected size is `0`, so a file of on-disk size 5 checked against an
expected size of 0 verifies as true, where the claim demands false. -/
theorem verify_zero_expected_cex :
    lookupFS [(⟨Dir.temp, "a"⟩, ⟨1, 5⟩)] ⟨Dir.temp, "a"⟩ = some ⟨1, 5⟩ ∧
    verify_file [(⟨Dir.temp, "a"⟩, ⟨1, 5⟩)] ⟨Dir.temp, "a"⟩ (some 0) = true := by
  decide

/-- Claim C8 (amended): `verify_file` returns true exactly when the path
exists and the supplied expected size is absent, zero (falsy in Python, so
the comparison is skipped), or equal to the on-disk size; in particular it
returns false whenever the path is missing, or a nonzero expected size
differs from the on-disk size. -/
theorem verify_file_iff (fs : FS) (p : FPath) (s : Option Nat) :
    verify_file fs p s = true ↔
      ∃ f, lookupFS fs p = some f ∧
        ∀ n, s = some n → n = 0 ∨ f.size = n := by
  unfold verify_file
  cases hl : lookupFS fs p with
  | none => simp
  | some f =>
    cases s with
    | none => simp
    | some n =>
      by_cases hc : n ≠ 0 ∧ f.size ≠ n
      · simp only [if_pos hc]
        simp only [Bool.false_eq_true, false_iff]
        rintro ⟨f', hf', hall⟩
        rcases hall n rfl with h0 | hsz
        · exact hc.1 h0
        · rw [Option.some.inj hf'] at hc
          exact hc.2 hsz
      · simp only [if_neg hc]
        simp only [true_iff]
        refine ⟨f, rfl, ?_⟩
        intro m hm
        have hnm : n = m := Option.some.inj hm
        subst hnm
        push_neg at hc
        by_cases h0 : n = 0
        · exact Or.inl h0
        · exact Or.inr (hc h0)

/-- Claim C9 is contradicted by the code: under the default thresholds
(critical 10, warning 25) the monitor compares the percentage of disk *used*
against them, so 91% used (9% free) fires CRITICAL as the claim expects, but
76% used (24% free) also fires CRITICAL — not the claimed single LOW
warning — and 50% used (50% free) fires CRITICAL as well instead of
nothing; the warning branch is unreachable under the defaults. -/
theorem system_monitor_disk_defaults_eval :
    system_monitor_disk_sample DISK_CRITICAL_THRESHOLD_DEFAULT
        DISK_WARNING_THRESHOLD_DEFAULT 91 =
      [(NotifMsg.diskCritical 91, CRITICAL)] ∧
    system_monitor_disk_sample DISK_CRITICAL_THRESHOLD_DEFAULT
        DISK_WARNING_THRESHOLD_DEFAULT 76 =
      [(NotifMsg.diskCritical 76, CRITICAL)] ∧
    system_monitor_disk_sample DISK_CRITICAL_THRESHOLD_DEFAULT
        DISK_WARNING_THRESHOLD_DEFAULT 50 =
      [(NotifMsg.diskCritical 50, CRITICAL)] := by
  decide

end Timelapse
